/-
Verification of the hip/urllib3 proof-of-concept package initialisation
(`src/urllib3/__init__.py`) and the dummyserver test harness
(`dummyserver/server.py`) against their natural-language specification.

The Python source is shallowly embedded: module import-time side effects
become explicit state-transformers, the CPython `warnings` filter machinery
is embedded by its documented list semantics, and socket-touching test
helpers are embedded as pure functions over an explicit environment that
records the outcome of each OS call.
-/
import Mathlib

namespace Hip

/-! ## Warning categories

The warning classes visible in the sources.  `src/urllib3/__init__.py`
registers filters for `SecurityWarning`, `SubjectAltNameWarning`,
`InsecurePlatformWarning` and `SNIMissingWarning` (imported from
`urllib3.exceptions`), and `dummyserver/server.py` declares
`NoIPv6Warning(HTTPWarning)`. -/

inductive WCategory where
  | Warning
  | HTTPWarning
  | SecurityWarning
  | SubjectAltNameWarning
  | InsecurePlatformWarning
  | SNIMissingWarning
  | NoIPv6Warning
  | UserWarning
  deriving DecidableEq, Repr

/-- Modelled from the spec: the class hierarchy of `urllib3.exceptions` is
not under src/ (only its importers are).  The spec's warning taxonomy — a
package-root `HTTPWarning` under Python's `Warning`, security advisories
under `SecurityWarning` — gives the direct-superclass map; `NoIPv6Warning`'s
base `HTTPWarning` is read off `dummyserver/server.py` directly. -/
def directBase : WCategory → Option WCategory
  | .Warning => none
  | .HTTPWarning => some .Warning
  | .SecurityWarning => some .HTTPWarning
  | .SubjectAltNameWarning => some .SecurityWarning
  | .InsecurePlatformWarning => some .SecurityWarning
  | .SNIMissingWarning => some .HTTPWarning
  | .NoIPv6Warning => some .HTTPWarning
  | .UserWarning => some .Warning

/-- `issubclass(c, d)` on the embedded class table (reflexive, walks the
direct-base chain; the chain has depth at most 3, so fuel 8 is exact). -/
def isSubclassAux : Nat → WCategory → WCategory → Bool
  | 0, _, _ => false
  | fuel + 1, c, d =>
    if c = d then true
    else match directBase c with
      | none => false
      | some b => isSubclassAux fuel b d

def isSubclass (c d : WCategory) : Bool := isSubclassAux 8 c d

/-! ## The CPython `warnings` filter list

Embedded from the documented/stdlib behaviour of `warnings.simplefilter`:
a filter is an (action, category) pair; `simplefilter(action, cat)` with
`append=False` removes an existing identical entry and inserts at the
front, with `append=True` it appends unless the identical entry is
already present.  A warning of category `c` is handled by the first
filter whose category is a superclass of `c`. -/

inductive WAction where
  | always
  | default
  | ignore
  | error
  deriving DecidableEq, Repr

structure WFilter where
  action : WAction
  category : WCategory
  deriving DecidableEq, Repr

def simplefilterAppend (fs : List WFilter) (action : WAction) (cat : WCategory) :
    List WFilter :=
  let e : WFilter := ⟨action, cat⟩
  if e ∈ fs then fs else fs ++ [e]

def simplefilterFront (fs : List WFilter) (action : WAction) (cat : WCategory) :
    List WFilter :=
  let e : WFilter := ⟨action, cat⟩
  e :: fs.erase e

/-- The action the filter list assigns to a freshly raised warning of
category `c`: first matching entry wins; with no match CPython falls back
to the "default" action. -/
def resolveAction (fs : List WFilter) (c : WCategory) : WAction :=
  match fs with
  | [] => .default
  | f :: rest => if isSubclass c f.category then f.action else resolveAction rest c

/-! ## Import-time global state of `urllib3/__init__.py` -/

/-- The process-wide state the module's import-time code can reach:
the `warnings` filter list, the handler list of the package's own logger,
and an opaque remainder standing for every other piece of global state. -/
structure PyGlobalState where
  filters : List WFilter
  urllib3LoggerHandlers : List String
  otherGlobals : Nat
  deriving DecidableEq, Repr

/-- The four filter registrations at the bottom of
`src/urllib3/__init__.py`, in source order. -/
def importedFilters : List WFilter :=
  [⟨.always, .SecurityWarning⟩,
   ⟨.default, .SubjectAltNameWarning⟩,
   ⟨.default, .InsecurePlatformWarning⟩,
   ⟨.default, .SNIMissingWarning⟩]

/-- Import-time side effects of `urllib3/__init__.py`:
`logging.getLogger(__name__).addHandler(NullHandler())` followed by the
four `warnings.simplefilter(..., append=True)` calls. -/
def importUrllib3 (s : PyGlobalState) : PyGlobalState :=
  let s1 : PyGlobalState :=
    { s with urllib3LoggerHandlers := s.urllib3LoggerHandlers ++ ["NullHandler"] }
  let fs1 := simplefilterAppend s1.filters .always .SecurityWarning
  let fs2 := simplefilterAppend fs1 .default .SubjectAltNameWarning
  let fs3 := simplefilterAppend fs2 .default .InsecurePlatformWarning
  let fs4 := simplefilterAppend fs3 .default .SNIMissingWarning
  { s1 with filters := fs4 }

/-- `urllib3.disable_warnings(category=HTTPWarning)`: a single
`warnings.simplefilter("ignore", category)` call (no `append`, so the
filter goes to the front of the list). -/
def disable_warnings (s : PyGlobalState) (category : WCategory) : PyGlobalState :=
  { s with filters := simplefilterFront s.filters .ignore category }

/-- `disable_warnings()` with its default argument `category=HTTPWarning`. -/
def disable_warnings_default_arg (s : PyGlobalState) : PyGlobalState :=
  disable_warnings s .HTTPWarning

/-! ## The public export list `__all__` of `urllib3/__init__.py` -/

/-- The literal `__all__` list at the top of `src/urllib3/__init__.py`,
in source order. -/
def baseExports : List String :=
  ["HTTPConnectionPool", "HTTPSConnectionPool", "PoolManager", "ProxyManager",
   "HTTPResponse", "Retry", "Timeout", "add_stderr_logger", "connection_from_url",
   "disable_warnings", "encode_multipart_formdata", "get_host", "make_headers",
   "proxy_from_url"]

/-- The names `__all__.extend(...)` adds inside the
`if sys.version_info >= (3, 6):` block. -/
def asyncExports : List String :=
  ["AsyncHTTPConnectionPool", "AsyncHTTPSConnectionPool", "AsyncPoolManager",
   "AsyncProxyManager", "AsyncHTTPResponse"]

/-- Python tuple comparison `version >= (3, 6)` restricted to the
(major, minor) components the module actually compares. -/
def versionAtLeast (v w : Nat × Nat) : Bool :=
  if v.1 = w.1 then decide (w.2 ≤ v.2) else decide (w.1 < v.1)

/-- The value of `urllib3.__all__` on an interpreter reporting version `v`:
the base list, extended with the Async names only when `v >= (3, 6)`. -/
def allExports (v : Nat × Nat) : List String :=
  if versionAtLeast v (3, 6) then baseExports ++ asyncExports else baseExports

/-! ## `dummyserver/server.py`: certificate fixtures

`os.path.join` on the two-segment paths the module builds. -/

def pathJoin (a b : String) : String := a ++ "/" ++ b

/-- `CERTS_PATH = os.path.join(os.path.dirname(__file__), "certs")`,
parameterised by the runtime directory of the module file. -/
def CERTS_PATH (dirOfFile : String) : String := pathJoin dirOfFile "certs"

/-- A fixture dictionary as passed to `ssl`: only the keys the module
ever sets.  `cert_reqs` holds the numeric `ssl.CERT_*` constant
(`ssl.CERT_OPTIONAL = 1`). -/
structure CertConfig where
  certfile : Option String
  keyfile : Option String
  cert_reqs : Option Nat
  ca_certs : Option String
  deriving DecidableEq, Repr

def DEFAULT_CERTS (base : String) : CertConfig :=
  { certfile := some (pathJoin (CERTS_PATH base) "server.crt"),
    keyfile := some (pathJoin (CERTS_PATH base) "server.key"),
    cert_reqs := some 1,
    ca_certs := some (pathJoin (CERTS_PATH base) "cacert.pem") }

def DEFAULT_CLIENT_CERTS (base : String) : CertConfig :=
  { certfile := some (pathJoin (CERTS_PATH base) "client_intermediate.pem"),
    keyfile := some (pathJoin (CERTS_PATH base) "client_intermediate.key"),
    cert_reqs := none, ca_certs := none }

def DEFAULT_CLIENT_NO_INTERMEDIATE_CERTS (base : String) : CertConfig :=
  { certfile := some (pathJoin (CERTS_PATH base) "client_no_intermediate.pem"),
    keyfile := some (pathJoin (CERTS_PATH base) "client_intermediate.key"),
    cert_reqs := none, ca_certs := none }

def PASSWORD_KEYFILE (base : String) : String :=
  pathJoin (CERTS_PATH base) "server_password.key"

def PASSWORD_CLIENT_KEYFILE (base : String) : String :=
  pathJoin (CERTS_PATH base) "client_password.key"

def NO_SAN_CERTS (base : String) : CertConfig :=
  { certfile := some (pathJoin (CERTS_PATH base) "server.no_san.crt"),
    keyfile := (DEFAULT_CERTS base).keyfile,
    cert_reqs := none, ca_certs := none }

def IP_SAN_CERTS (base : String) : CertConfig :=
  { certfile := some (pathJoin (CERTS_PATH base) "server.ip_san.crt"),
    keyfile := (DEFAULT_CERTS base).keyfile,
    cert_reqs := none, ca_certs := none }

def IPV6_ADDR_CERTS (base : String) : CertConfig :=
  { certfile := some (pathJoin (CERTS_PATH base) "server.ipv6addr.crt"),
    keyfile := some (pathJoin (CERTS_PATH base) "server.ipv6addr.key"),
    cert_reqs := none, ca_certs := none }

def IPV6_SAN_CERTS (base : String) : CertConfig :=
  { certfile := some (pathJoin (CERTS_PATH base) "server.ipv6_san.crt"),
    keyfile := (DEFAULT_CERTS base).keyfile,
    cert_reqs := none, ca_certs := none }

def DEFAULT_CA (base : String) : String := pathJoin (CERTS_PATH base) "cacert.pem"

def DEFAULT_CA_BAD (base : String) : String :=
  pathJoin (CERTS_PATH base) "client_bad.pem"

def NO_SAN_CA (base : String) : String :=
  pathJoin (CERTS_PATH base) "cacert.no_san.pem"

def DEFAULT_CA_DIR (base : String) : String :=
  pathJoin (CERTS_PATH base) "ca_path_test"

def IPV6_ADDR_CA (base : String) : String :=
  pathJoin (CERTS_PATH base) "server.ipv6addr.crt"

def IPV6_SAN_CA (base : String) : String :=
  pathJoin (CERTS_PATH base) "server.ipv6_san.crt"

def COMBINED_CERT_AND_KEY (base : String) : String :=
  pathJoin (CERTS_PATH base) "server.combined.pem"

/-- The certificate/key path entries of a fixture dictionary. -/
def certKeyEntries (c : CertConfig) : List String :=
  c.certfile.toList ++ c.keyfile.toList

/-- The certificate scenarios the spec names, each paired with the path
entries of the module-level fixture serving it. -/
def certScenarios (base : String) : List (String × List String) :=
  [("no SAN cert", certKeyEntries (NO_SAN_CERTS base)),
   ("IP SAN cert", certKeyEntries (IP_SAN_CERTS base)),
   ("IPv6 address cert", certKeyEntries (IPV6_ADDR_CERTS base)),
   ("IPv6 SAN cert", certKeyEntries (IPV6_SAN_CERTS base)),
   ("client cert with intermediate", certKeyEntries (DEFAULT_CLIENT_CERTS base)),
   ("client cert without intermediate",
     certKeyEntries (DEFAULT_CLIENT_NO_INTERMEDIATE_CERTS base)),
   ("passphrase-protected server key", [PASSWORD_KEYFILE base]),
   ("passphrase-protected client key", [PASSWORD_CLIENT_KEYFILE base]),
   ("combined cert and key file", [COMBINED_CERT_AND_KEY base]),
   ("untrustworthy CA", [DEFAULT_CA_BAD base])]

/-- A path lies directly under the fixture harness's certs directory. -/
def UnderCertsDir (base p : String) : Prop :=
  ∃ rest, p = pathJoin (CERTS_PATH base) rest

/-! ## `dummyserver/server.py`: the `_has_ipv6` probe

The probe's interaction with the OS is an explicit environment: whether
the interpreter was compiled with IPv6 (`socket.has_ipv6`), and which of
the two socket calls in the `try` block raises, if any. -/

inductive SockAttempt where
  | createRaises
  | bindRaises
  | bindOk
  deriving DecidableEq, Repr

structure Ipv6Env where
  runtime_has_ipv6 : Bool
  attempt : SockAttempt
  deriving DecidableEq, Repr

inductive SockEvent where
  | createdInet6
  | bindTried
  | closed
  deriving DecidableEq, Repr

/-- `_has_ipv6(host)` run against environment `env`, returning what the
call returns (or the exception it propagates, as `.error`) together with
the trace of socket operations it performed.  Mirrors the source: the
`try` swallows any `Exception` from `socket.socket`/`sock.bind`, and the
trailing `if sock: sock.close()` closes the socket whenever one was
created. -/
def hasIpv6Run (env : Ipv6Env) : Except String (Bool × List SockEvent) :=
  let (sockCreated, bound, events) :=
    if env.runtime_has_ipv6 then
      match env.attempt with
      | .createRaises => (false, false, ([] : List SockEvent))
      | .bindRaises => (true, false, [SockEvent.createdInet6, SockEvent.bindTried])
      | .bindOk => (true, true, [SockEvent.createdInet6, SockEvent.bindTried])
    else (false, false, [])
  let events := if sockCreated then events ++ [SockEvent.closed] else events
  .ok (bound, events)

/-- The boolean `_has_ipv6` returns (it never raises, so `.reject` is
unreachable; `false` there keeps the projection total). -/
def _has_ipv6 (env : Ipv6Env) : Bool :=
  match hasIpv6Run env with
  | .ok (b, _) => b
  | .error _ => false

/-- The socket-operation trace of a `_has_ipv6` call. -/
def hasIpv6Trace (env : Ipv6Env) : List SockEvent :=
  match hasIpv6Run env with
  | .ok (_, t) => t
  | .error _ => []

/-- `HAS_IPV6_AND_DNS = _has_ipv6("localhost")`, as a function of the
localhost probe's environment. -/
def HAS_IPV6_AND_DNS (localhostProbe : Ipv6Env) : Bool := _has_ipv6 localhostProbe

/-! ## `dummyserver/server.py`: `SocketServerThread._start_server` -/

inductive AddrFamily where
  | af_inet
  | af_inet6
  deriving DecidableEq, Repr

inductive SrvEvent where
  | warned (c : WCategory)
  | socketCreated (fam : AddrFamily)
  | reuseAddrSet
  | boundPortZero
  | portAssigned (p : Nat)
  | listenCalled (backlog : Nat)
  | readySet
  | handlerCalled
  | socketClosed
  deriving DecidableEq, Repr

/-- The runtime facts `_start_server` consults: the class attribute
`USE_IPV6` (bound to `HAS_IPV6_AND_DNS`), whether the platform is win32,
whether a `ready_event` was passed, and the port the OS assigns when the
socket is bound to port 0. -/
structure SrvEnv where
  useIpv6 : Bool
  isWin32 : Bool
  hasReadyEvent : Bool
  osPort : Nat
  deriving DecidableEq, Repr

/-- The straight-line event trace of `SocketServerThread._start_server`:
choose the address family (warning on the IPv4 fallback), optionally set
`SO_REUSEADDR`, bind to port 0 and record the assigned port, `listen(1)`,
signal `ready_event` when one was given, run the one-shot
`socket_handler`, close the socket. -/
def startServerTrace (env : SrvEnv) : List SrvEvent :=
  (if env.useIpv6 then
    [SrvEvent.socketCreated .af_inet6]
  else
    [SrvEvent.warned .NoIPv6Warning, SrvEvent.socketCreated .af_inet]) ++
  (if env.isWin32 then [] else [SrvEvent.reuseAddrSet]) ++
  [SrvEvent.boundPortZero, SrvEvent.portAssigned env.osPort,
   SrvEvent.listenCalled 1] ++
  (if env.hasReadyEvent then [SrvEvent.readySet] else []) ++
  [SrvEvent.handlerCalled, SrvEvent.socketClosed]

/-- The address family `_start_server` opens its server socket with. -/
def startServerFamily (env : SrvEnv) : AddrFamily :=
  if env.useIpv6 then .af_inet6 else .af_inet

/-- The warning categories `_start_server` emits. -/
def startServerWarnings (env : SrvEnv) : List WCategory :=
  (startServerTrace env).filterMap fun e =>
    match e with
    | .warned c => some c
    | _ => none

/-! ## `dummyserver/server.py`: `get_unreachable_address` -/

def ascii_lowercase : List Char := "abcdefghijklmnopqrstuvwxyz".toList

/-- The nondeterminism of `get_unreachable_address`: the stream of
`random.choice` draws (as indices into `string.ascii_lowercase`) and
whether `socket.create_connection((host, 54321))` succeeds for a host. -/
structure UnreachEnv where
  randIdx : Nat → Nat
  connects : String → Bool

/-- The `i`-th candidate host: 60 `random.choice(string.ascii_lowercase)`
draws joined into a string (draw number `60*i + j` feeds character `j`). -/
def candidateHost (env : UnreachEnv) (i : Nat) : String :=
  String.mk ((List.range 60).map fun j =>
    ascii_lowercase.getD (env.randIdx (60 * i + j) % 26) 'a')

/-- `get_unreachable_address()` with explicit fuel standing for the
unbounded `while True` (the source loop has no a-priori bound): draw
candidate `i`; if the connection attempt raises `socket.error` return
`(host, 54321)`, otherwise close the accepted connection and draw the
next candidate.  Returns the address together with the hosts whose
accepted connections were closed along the way. -/
def get_unreachable_address (env : UnreachEnv) :
    Nat → Nat → Option ((String × Nat) × List String)
  | 0, _ => none
  | fuel + 1, i =>
    let host := candidateHost env i
    if env.connects host then
      match get_unreachable_address env fuel (i + 1) with
      | some (addr, closedHosts) => some (addr, host :: closedHosts)
      | none => none
    else
      some ((host, 54321), [])

/-! ## TLS verification (modelled from the spec)

The TLS-verification component (`verify(CertificateIdentity,
target_host_or_ip)`) lives in modules not present under src/
(connection/TLS code of the package); it is embedded here from the
spec's §4.5 contract. -/

/-- The three advisory conditions of the spec. -/
inductive AdvisoryCondition where
  | sniNotSent
  | cnFallbackUsed
  | untrustedCaUsed
  deriving DecidableEq, Repr

/-- Modelled from the spec: the warning category each advisory condition
is raised under (the emission sites are in package modules not under
src/); the categories themselves are the ones
`src/urllib3/__init__.py` imports from `urllib3.exceptions` and
registers filters for. -/
def advisoryCategory : AdvisoryCondition → WCategory
  | .sniNotSent => .SNIMissingWarning
  | .cnFallbackUsed => .SubjectAltNameWarning
  | .untrustedCaUsed => .SecurityWarning

/-- Modelled from the spec: `CertificateIdentity` — parsed peer
certificate: common name, DNS SAN entries, IP SAN entries. -/
structure CertificateIdentity where
  commonName : Option String
  dnsSans : List String
  ipSans : List String
  deriving DecidableEq, Repr

/-- The target used to connect: a hostname or a literal IP address. -/
inductive VerifyTarget where
  | hostname (h : String)
  | ipLiteral (ip : String)
  deriving DecidableEq, Repr

/-- Caller configuration relevant to the advisories: whether the CA
bundle in use was marked untrusted for testing. -/
structure VerifyConfig where
  caMarkedUntrusted : Bool
  deriving DecidableEq, Repr

/-- `Accept` carrying the advisory warning set, or `Reject`. -/
inductive VerifyResult where
  | accept (warnings : List AdvisoryCondition)
  | reject
  deriving DecidableEq, Repr

/-- ASCII lower-casing of one character. -/
def asciiLowerChar (c : Char) : Char :=
  if 'A' ≤ c ∧ c ≤ 'Z' then Char.ofNat (c.toNat + 32) else c

/-- Split a character list on `'.'` (always returns at least one label). -/
def splitDot : List Char → List (List Char)
  | [] => [[]]
  | c :: rest =>
    match splitDot rest with
    | [] => [[]]
    | l :: ls => if c = '.' then [] :: l :: ls else (c :: l) :: ls

/-- The dot-separated labels of a name, ASCII-lower-cased. -/
def dnsLabels (s : String) : List (List Char) :=
  splitDot (s.toList.map asciiLowerChar)

/-- Case-insensitive DNS name match with single-label wildcard support on
the left-most label only (spec §4.5). -/
def dnsMatch (patt host : String) : Bool :=
  match dnsLabels patt, dnsLabels host with
  | p0 :: prest, h0 :: hrest => (p0 == ['*'] || p0 == h0) && prest == hrest
  | ps, hs => ps == hs

/-- Modelled from the spec: `verify(CertificateIdentity, target)` per
§4.5 — match the target against SAN entries of its own type when any SAN
exists (never cross-type, never falling back to the common name), fall
back to the common name with a deprecated-path advisory only when the
certificate carries no SAN at all, flag SNI-not-sent on literal-IP
targets and the untrusted-CA advisory when configured. -/
def verify (cfg : VerifyConfig) (cert : CertificateIdentity) (target : VerifyTarget) :
    VerifyResult :=
  let caWarn : List AdvisoryCondition :=
    if cfg.caMarkedUntrusted then [.untrustedCaUsed] else []
  let hasAnySan : Bool := !(cert.dnsSans.isEmpty && cert.ipSans.isEmpty)
  match target with
  | .hostname h =>
    if hasAnySan then
      if cert.dnsSans.any (fun s => dnsMatch s h) then .accept caWarn else .reject
    else
      match cert.commonName with
      | some cn =>
        if dnsMatch cn h then .accept (caWarn ++ [.cnFallbackUsed]) else .reject
      | none => .reject
  | .ipLiteral ip =>
    if hasAnySan then
      if cert.ipSans.any (fun s => s == ip) then
        .accept (caWarn ++ [.sniNotSent])
      else .reject
    else
      match cert.commonName with
      | some cn =>
        if cn == ip then .accept (caWarn ++ [.sniNotSent, .cnFallbackUsed])
        else .reject
      | none => .reject

/-- The results of `n` successive calls of `verify` on the same
(configuration, certificate, target) triple. -/
def verifyCallSequence (cfg : VerifyConfig) (cert : CertificateIdentity)
    (target : VerifyTarget) (n : Nat) : List VerifyResult :=
  (List.range n).map fun _ => verify cfg cert target

/-- A process state with empty filter list and no handlers, for exercising
the import-time effects from a pristine interpreter. -/
def pristineState : PyGlobalState := ⟨[], [], 0⟩

/-- A concrete nondeterminism environment for `get_unreachable_address`:
the random stream always draws index 0 and no host accepts a connection. -/
def constantRandEnv : UnreachEnv := ⟨fun _ => 0, fun _ => false⟩

/-- The first candidate host drawn under `constantRandEnv`. -/
def constantRandHost : String := candidateHost constantRandEnv 0

/-! ## Helper lemmas -/

theorem mem_simplefilterAppend_self (fs : List WFilter) (a : WAction) (c : WCategory) :
    (⟨a, c⟩ : WFilter) ∈ simplefilterAppend fs a c := by
  by_cases h : (⟨a, c⟩ : WFilter) ∈ fs <;> simp [simplefilterAppend, h]

theorem mem_simplefilterAppend_mono (fs : List WFilter) (a : WAction) (c : WCategory)
    (x : WFilter) (hx : x ∈ fs) : x ∈ simplefilterAppend fs a c := by
  by_cases h : (⟨a, c⟩ : WFilter) ∈ fs <;> simp [simplefilterAppend, h, hx]

theorem importUrllib3_filters (s : PyGlobalState) :
    (importUrllib3 s).filters =
      simplefilterAppend
        (simplefilterAppend
          (simplefilterAppend
            (simplefilterAppend s.filters .always .SecurityWarning)
            .default .SubjectAltNameWarning)
          .default .InsecurePlatformWarning)
        .default .SNIMissingWarning := rfl

theorem candidateHost_length (env : UnreachEnv) (i : Nat) :
    (candidateHost env i).length = 60 := by
  show ((List.range 60).map _).length = 60
  simp

theorem candidateHost_chars (env : UnreachEnv) (i : Nat) :
    ∀ ch ∈ (candidateHost env i).toList, ch ∈ ascii_lowercase := by
  intro ch hch
  have hm : ch ∈ (List.range 60).map
      (fun j => ascii_lowercase.getD (env.randIdx (60 * i + j) % 26) 'a') := hch
  rcases List.mem_map.mp hm with ⟨j, _, rfl⟩
  have hlt : env.randIdx (60 * i + j) % 26 < ascii_lowercase.length :=
    Nat.mod_lt _ (by decide)
  rw [List.getD_eq_getElem _ _ hlt]
  exact List.getElem_mem hlt

/-! ## Claim theorems -/

/-- C1: repeated TLS verification of the same (configuration, certificate,
target) triple yields the same Accept/Reject verdict and the same advisory
warning set on every call — every element of an `n`-call sequence equals
the single-call result, so no call's outcome depends on hidden state or
on how many calls preceded it. -/
theorem verify_repeated_calls_agree (cfg : VerifyConfig) (cert : CertificateIdentity)
    (target : VerifyTarget) (n : Nat) :
    ∀ r ∈ verifyCallSequence cfg cert target n, r = verify cfg cert target := by
  intro r hr
  rcases List.mem_map.mp hr with ⟨a, _, h⟩
  exact h.symm

/-- C1 witness: three repeated verifications of a no-SAN certificate
against its common name all yield CN-fallback acceptance. -/
theorem verify_repeated_calls_agree_witness :
    VerifyResult.accept [.cnFallbackUsed] ∈
        verifyCallSequence ⟨false⟩ ⟨some "localhost", [], []⟩ (.hostname "localhost") 3 ∧
      VerifyResult.accept [.cnFallbackUsed] =
        verify ⟨false⟩ ⟨some "localhost", [], []⟩ (.hostname "localhost") :=
  ⟨by decide, verify_repeated_calls_agree ⟨false⟩ ⟨some "localhost", [], []⟩
      (.hostname "localhost") 3 _ (by decide)⟩

/-- C2 counterexample: the Async names are only exported when
`sys.version_info >= (3, 6)`; on a Python 3.5 interpreter (which the
module otherwise supports — the gate is an `if`, not an error) the
public interface lacks `AsyncPoolManager`, so both modes are not provided
on every supported interpreter. -/
theorem asyncExports_absent_below_py36 :
    "AsyncPoolManager" ∉ allExports (3, 5) ∧ "AsyncPoolManager" ∈ allExports (3, 6) := by
  decide

/-- C2 (amended): on every interpreter version the blocking-mode names
are exported, and each cooperative-mode (Async) name is exported if and
only if `sys.version_info >= (3, 6)` — so below (3, 6) none of the Async
names is in the public interface; in either case the export list carries
a single shared `Timeout` name and a single shared `Retry` name. -/
theorem exports_both_modes (v : Nat × Nat) :
    (∀ x ∈ ["HTTPConnectionPool", "HTTPSConnectionPool", "PoolManager", "ProxyManager",
        "HTTPResponse", "Timeout", "Retry"], x ∈ allExports v) ∧
    (∀ x ∈ asyncExports, (x ∈ allExports v ↔ versionAtLeast v (3, 6) = true)) ∧
    (allExports v).count "Timeout" = 1 ∧ (allExports v).count "Retry" = 1 := by
  cases h : versionAtLeast v (3, 6)
  · have e : allExports v = baseExports := by simp [allExports, h]
    rw [e]
    decide
  · have e : allExports v = baseExports ++ asyncExports := by simp [allExports, h]
    rw [e]
    decide

/-- C2 witness: `AsyncPoolManager` is exported on Python 3.6, is not
exported on Python 3.5, and the `Timeout` export is unique. -/
theorem exports_both_modes_witness :
    ("AsyncPoolManager" ∈ allExports (3, 6) ↔ versionAtLeast (3, 6) (3, 6) = true) ∧
      ("AsyncPoolManager" ∈ allExports (3, 5) ↔ versionAtLeast (3, 5) (3, 6) = true) ∧
      (allExports (3, 6)).count "Timeout" = 1 :=
  ⟨(exports_both_modes (3, 6)).2.1 "AsyncPoolManager" (by decide),
   (exports_both_modes (3, 5)).2.1 "AsyncPoolManager" (by decide),
   (exports_both_modes (3, 6)).2.2.1⟩

/-- C3: the three advisory conditions are mapped to pairwise-distinct
warning categories (`SNIMissingWarning`, `SubjectAltNameWarning`,
`SecurityWarning`), and after import each of those categories has its own
entry in the process filter list, whatever filter state preceded the
import. -/
theorem advisory_categories_distinct_registered (s : PyGlobalState) :
    (advisoryCategory .sniNotSent ≠ advisoryCategory .cnFallbackUsed ∧
     advisoryCategory .sniNotSent ≠ advisoryCategory .untrustedCaUsed ∧
     advisoryCategory .cnFallbackUsed ≠ advisoryCategory .untrustedCaUsed) ∧
    (⟨.always, advisoryCategory .untrustedCaUsed⟩ : WFilter) ∈ (importUrllib3 s).filters ∧
    (⟨.default, advisoryCategory .cnFallbackUsed⟩ : WFilter) ∈ (importUrllib3 s).filters ∧
    (⟨.default, advisoryCategory .sniNotSent⟩ : WFilter) ∈ (importUrllib3 s).filters := by
  rw [show advisoryCategory .sniNotSent = .SNIMissingWarning from rfl,
    show advisoryCategory .cnFallbackUsed = .SubjectAltNameWarning from rfl,
    show advisoryCategory .untrustedCaUsed = .SecurityWarning from rfl]
  refine ⟨by decide, ?_, ?_, ?_⟩ <;> rw [importUrllib3_filters]
  · exact mem_simplefilterAppend_mono _ _ _ _ (mem_simplefilterAppend_mono _ _ _ _
      (mem_simplefilterAppend_mono _ _ _ _ (mem_simplefilterAppend_self _ _ _)))
  · exact mem_simplefilterAppend_mono _ _ _ _ (mem_simplefilterAppend_mono _ _ _ _
      (mem_simplefilterAppend_self _ _ _))
  · exact mem_simplefilterAppend_self _ _ _

/-- C3 witness: on a pristine interpreter the SNI advisory's category has
its own filter entry after import. -/
theorem advisory_categories_witness :
    (⟨.default, advisoryCategory .sniNotSent⟩ : WFilter) ∈
      (importUrllib3 pristineState).filters :=
  (advisory_categories_distinct_registered pristineState).2.2.2

/-- C4: importing the module appends exactly the four advisory filters, in
source order, to the tail of whatever filter list the user already built
(so earlier user filters keep precedence), attaches a `NullHandler` to the
package logger, and leaves every other piece of global state unchanged. -/
theorem importUrllib3_effects (s : PyGlobalState)
    (h : ∀ f ∈ importedFilters, f ∉ s.filters) :
    importUrllib3 s =
      { filters := s.filters ++
          [⟨.always, .SecurityWarning⟩, ⟨.default, .SubjectAltNameWarning⟩,
           ⟨.default, .InsecurePlatformWarning⟩, ⟨.default, .SNIMissingWarning⟩],
        urllib3LoggerHandlers := s.urllib3LoggerHandlers ++ ["NullHandler"],
        otherGlobals := s.otherGlobals } := by
  have h1 := h ⟨.always, .SecurityWarning⟩ (by decide)
  have h2 := h ⟨.default, .SubjectAltNameWarning⟩ (by decide)
  have h3 := h ⟨.default, .InsecurePlatformWarning⟩ (by decide)
  have h4 := h ⟨.default, .SNIMissingWarning⟩ (by decide)
  have e1 : simplefilterAppend s.filters .always .SecurityWarning
      = s.filters ++ [⟨.always, .SecurityWarning⟩] := by
    simp [simplefilterAppend, h1]
  have e2 : simplefilterAppend (s.filters ++ [⟨.always, .SecurityWarning⟩])
        .default .SubjectAltNameWarning
      = s.filters ++ [⟨.always, .SecurityWarning⟩, ⟨.default, .SubjectAltNameWarning⟩] := by
    simp [simplefilterAppend, h2]
  have e3 : simplefilterAppend
        (s.filters ++ [⟨.always, .SecurityWarning⟩, ⟨.default, .SubjectAltNameWarning⟩])
        .default .InsecurePlatformWarning
      = s.filters ++ [⟨.always, .SecurityWarning⟩, ⟨.default, .SubjectAltNameWarning⟩,
          ⟨.default, .InsecurePlatformWarning⟩] := by
    simp [simplefilterAppend, h3]
  have e4 : simplefilterAppend
        (s.filters ++ [⟨.always, .SecurityWarning⟩, ⟨.default, .SubjectAltNameWarning⟩,
          ⟨.default, .InsecurePlatformWarning⟩])
        .default .SNIMissingWarning
      = s.filters ++ [⟨.always, .SecurityWarning⟩, ⟨.default, .SubjectAltNameWarning⟩,
          ⟨.default, .InsecurePlatformWarning⟩, ⟨.default, .SNIMissingWarning⟩] := by
    simp [simplefilterAppend, h4]
  have base : importUrllib3 s = PyGlobalState.mk
      (simplefilterAppend (simplefilterAppend (simplefilterAppend
        (simplefilterAppend s.filters .always .SecurityWarning)
        .default .SubjectAltNameWarning)
        .default .InsecurePlatformWarning) .default .SNIMissingWarning)
      (s.urllib3LoggerHandlers ++ ["NullHandler"]) s.otherGlobals := rfl
  rw [base, e1, e2, e3, e4]

/-- C4 witness: importing over a state holding one user filter and one
logger handler appends the four advisory filters after the user's filter
and touches nothing else. -/
theorem importUrllib3_effects_witness :
    importUrllib3 ⟨[⟨.ignore, .UserWarning⟩], ["existing"], 7⟩ =
      ⟨[⟨.ignore, .UserWarning⟩, ⟨.always, .SecurityWarning⟩,
        ⟨.default, .SubjectAltNameWarning⟩, ⟨.default, .InsecurePlatformWarning⟩,
        ⟨.default, .SNIMissingWarning⟩], ["existing", "NullHandler"], 7⟩ :=
  importUrllib3_effects ⟨[⟨.ignore, .UserWarning⟩], ["existing"], 7⟩ (by decide)

/-- C5: `_has_ipv6` is total — in every environment the call returns
normally (never propagating the socket-creation or bind exception),
returns `True` exactly when the runtime has IPv6 support and the
`AF_INET6` socket was successfully bound, performs no socket operation at
all when the runtime lacks IPv6 support, and closes every socket it
created before returning. -/
theorem hasIpv6_total_correct (env : Ipv6Env) :
    hasIpv6Run env = .ok (_has_ipv6 env, hasIpv6Trace env) ∧
    (_has_ipv6 env = true ↔ env.runtime_has_ipv6 = true ∧ env.attempt = .bindOk) ∧
    (env.runtime_has_ipv6 = false → hasIpv6Trace env = []) ∧
    (SockEvent.createdInet6 ∈ hasIpv6Trace env →
      SockEvent.closed ∈ hasIpv6Trace env) := by
  rcases env with ⟨h, a⟩
  cases h <;> cases a <;>
    simp [hasIpv6Run, _has_ipv6, hasIpv6Trace]

/-- C5 witness: with IPv6 support and a successful bind the probe returns
`True` and the created socket is closed; with the runtime lacking IPv6
support the trace is empty. -/
theorem hasIpv6_total_correct_witness :
    _has_ipv6 ⟨true, .bindOk⟩ = true ∧
      SockEvent.closed ∈ hasIpv6Trace ⟨true, .bindOk⟩ ∧
      hasIpv6Trace ⟨false, .createRaises⟩ = [] :=
  ⟨(hasIpv6_total_correct ⟨true, .bindOk⟩).2.1.mpr ⟨rfl, rfl⟩,
   (hasIpv6_total_correct ⟨true, .bindOk⟩).2.2.2 (by decide),
   (hasIpv6_total_correct ⟨false, .createRaises⟩).2.2.1 rfl⟩

/-- C6: each certificate scenario the spec names has its own fixture —
the scenario names are pairwise distinct — and every certificate/key path
entry of every scenario's fixture lies under the harness's certs
directory, wherever the module file resides. -/
theorem certScenarios_distinct_under_certsdir (base : String) :
    ((certScenarios base).map Prod.fst).Pairwise (· ≠ ·) ∧
    ∀ s ∈ certScenarios base, ∀ p ∈ s.2, UnderCertsDir base p := by
  constructor
  · simp only [certScenarios, List.map]
    decide
  · intro s hs p hp
    simp only [certScenarios, List.mem_cons, List.not_mem_nil, or_false] at hs
    rcases hs with rfl|rfl|rfl|rfl|rfl|rfl|rfl|rfl|rfl|rfl <;>
      simp only [certKeyEntries, NO_SAN_CERTS, IP_SAN_CERTS, IPV6_ADDR_CERTS,
        IPV6_SAN_CERTS, DEFAULT_CLIENT_CERTS, DEFAULT_CLIENT_NO_INTERMEDIATE_CERTS,
        DEFAULT_CERTS, Option.toList, List.cons_append, List.nil_append,
        List.mem_cons, List.mem_singleton, List.not_mem_nil, or_false] at hp <;>
      (rcases hp with rfl | rfl) <;> exact ⟨_, rfl⟩

/-- C6 witness: the passphrase-protected server key fixture path lies
under the certs directory of a concrete module location. -/
theorem certScenarios_witness :
    UnderCertsDir "dummyserver" (PASSWORD_KEYFILE "dummyserver") :=
  (certScenarios_distinct_under_certsdir "dummyserver").2
    ("passphrase-protected server key", [PASSWORD_KEYFILE "dummyserver"])
    (by decide) (PASSWORD_KEYFILE "dummyserver") (by decide)

/-- C7: `_start_server` opens an `AF_INET6` server socket and warns
nothing when the localhost IPv6 probe succeeded, and otherwise emits
`NoIPv6Warning` and falls back to an `AF_INET` socket; in either case the
server socket reaches `listen` and the handler runs, so starting the
harness never fails for lack of IPv6. -/
theorem startServer_ipv6_fallback (localhostProbe : Ipv6Env) (w r : Bool) (p : Nat) :
    (HAS_IPV6_AND_DNS localhostProbe = true →
      startServerFamily ⟨HAS_IPV6_AND_DNS localhostProbe, w, r, p⟩ = .af_inet6 ∧
      startServerWarnings ⟨HAS_IPV6_AND_DNS localhostProbe, w, r, p⟩ = []) ∧
    (HAS_IPV6_AND_DNS localhostProbe = false →
      startServerFamily ⟨HAS_IPV6_AND_DNS localhostProbe, w, r, p⟩ = .af_inet ∧
      startServerWarnings ⟨HAS_IPV6_AND_DNS localhostProbe, w, r, p⟩ =
        [.NoIPv6Warning]) ∧
    SrvEvent.listenCalled 1 ∈ startServerTrace ⟨HAS_IPV6_AND_DNS localhostProbe, w, r, p⟩ ∧
    SrvEvent.handlerCalled ∈ startServerTrace ⟨HAS_IPV6_AND_DNS localhostProbe, w, r, p⟩ := by
  cases h : HAS_IPV6_AND_DNS localhostProbe <;> cases w <;> cases r <;>
    simp [startServerFamily, startServerWarnings, startServerTrace]

/-- C7 witness: with a failed localhost probe the server warns
`NoIPv6Warning` and opens an IPv4 socket. -/
theorem startServer_ipv6_fallback_witness :
    startServerFamily ⟨HAS_IPV6_AND_DNS ⟨false, .bindOk⟩, false, true, 8081⟩ = .af_inet ∧
      startServerWarnings ⟨HAS_IPV6_AND_DNS ⟨false, .bindOk⟩, false, true, 8081⟩ =
        [.NoIPv6Warning] :=
  (startServer_ipv6_fallback ⟨false, .bindOk⟩ false true 8081).2.1 rfl

/-- C8: `disable_warnings()` puts an `ignore` filter for its category at
the front of the filter list, so with the default `HTTPWarning` argument
every category of the package hierarchy resolves to `ignore` afterwards,
whatever the rest of the filter state — including `SecurityWarning`,
which a pristine import otherwise configures to fire on every
occurrence. -/
theorem disable_warnings_suppresses (s : PyGlobalState) (c : WCategory)
    (h : isSubclass c .HTTPWarning = true) :
    resolveAction (disable_warnings_default_arg s).filters c = .ignore ∧
    resolveAction (importUrllib3 pristineState).filters .SecurityWarning = .always ∧
    resolveAction (disable_warnings_default_arg (importUrllib3 pristineState)).filters
      .SecurityWarning = .ignore := by
  refine ⟨?_, by decide, by decide⟩
  simp [disable_warnings_default_arg, disable_warnings, simplefilterFront, resolveAction, h]

/-- C8 witness: `SNIMissingWarning` is in the package hierarchy and is
suppressed after `disable_warnings()` on the freshly imported state. -/
theorem disable_warnings_suppresses_witness :
    isSubclass .SNIMissingWarning .HTTPWarning = true ∧
      resolveAction (disable_warnings_default_arg (importUrllib3 pristineState)).filters
        .SNIMissingWarning = .ignore :=
  ⟨by decide,
   (disable_warnings_suppresses (importUrllib3 pristineState) .SNIMissingWarning
      (by decide)).1⟩

/-- C9: when a `ready_event` is given, the `_start_server` trace is some
prefix followed exactly by `readySet`, the handler call and the socket
close — and that prefix already contains the bind, the assignment of the
OS-chosen port and the `listen` call, while `readySet` never occurs in
it; so the event is signaled only after the socket can accept, and the
socket is closed right after the one-shot handler returns. -/
theorem ready_event_after_listen (u w : Bool) (p : Nat) :
    ∃ pre, startServerTrace ⟨u, w, true, p⟩ =
        pre ++ [SrvEvent.readySet, SrvEvent.handlerCalled, SrvEvent.socketClosed] ∧
      SrvEvent.boundPortZero ∈ pre ∧ SrvEvent.portAssigned p ∈ pre ∧
      SrvEvent.listenCalled 1 ∈ pre ∧ SrvEvent.readySet ∉ pre := by
  cases u <;> cases w
  · exact ⟨[.warned .NoIPv6Warning, .socketCreated .af_inet, .reuseAddrSet,
      .boundPortZero, .portAssigned p, .listenCalled 1],
      by simp [startServerTrace], by simp, by simp, by simp, by simp⟩
  · exact ⟨[.warned .NoIPv6Warning, .socketCreated .af_inet,
      .boundPortZero, .portAssigned p, .listenCalled 1],
      by simp [startServerTrace], by simp, by simp, by simp, by simp⟩
  · exact ⟨[.socketCreated .af_inet6, .reuseAddrSet,
      .boundPortZero, .portAssigned p, .listenCalled 1],
      by simp [startServerTrace], by simp, by simp, by simp, by simp⟩
  · exact ⟨[.socketCreated .af_inet6,
      .boundPortZero, .portAssigned p, .listenCalled 1],
      by simp [startServerTrace], by simp, by simp, by simp, by simp⟩

/-- C10: whenever `get_unreachable_address` returns, the port is 54321,
the connection attempt to the returned host raised `socket.error`
(`connects` is false for it), the host is a fresh 60-character
lowercase-ASCII name, and every candidate that unexpectedly accepted a
connection had that connection closed before the next candidate was
drawn. -/
theorem get_unreachable_address_spec (env : UnreachEnv) :
    ∀ fuel i addr closedHosts,
      get_unreachable_address env fuel i = some (addr, closedHosts) →
      addr.2 = 54321 ∧ env.connects addr.1 = false ∧ addr.1.length = 60 ∧
      (∀ ch ∈ addr.1.toList, ch ∈ ascii_lowercase) ∧
      (∀ h ∈ closedHosts, env.connects h = true) := by
  intro fuel
  induction fuel with
  | zero =>
    intro i addr closedHosts h
    simp [get_unreachable_address] at h
  | succ n ih =>
    intro i addr closedHosts h
    rw [get_unreachable_address] at h
    by_cases hc : env.connects (candidateHost env i)
    · rw [if_pos hc] at h
      rcases hr : get_unreachable_address env n (i + 1) with _ | ⟨addr', closed'⟩
      · rw [hr] at h; exact absurd h (by simp)
      · rw [hr] at h
        have hinj := Option.some.inj h
        have ha : addr' = addr := congrArg Prod.fst hinj
        have hcl : candidateHost env i :: closed' = closedHosts :=
          congrArg Prod.snd hinj
        rcases ih (i + 1) addr' closed' hr with ⟨q1, q2, q3, q4, q5⟩
        subst ha
        refine ⟨q1, q2, q3, q4, ?_⟩
        intro x hx
        rw [← hcl] at hx
        rcases List.mem_cons.mp hx with h' | h'
        · rw [h']; exact hc
        · exact q5 x h'
    · rw [if_neg hc] at h
      have hinj := Option.some.inj h
      have ha : (candidateHost env i, 54321) = addr := congrArg Prod.fst hinj
      have hcl : ([] : List String) = closedHosts := congrArg Prod.snd hinj
      subst ha
      subst hcl
      refine ⟨rfl, by simpa using hc, candidateHost_length env i,
        candidateHost_chars env i, ?_⟩
      intro x hx
      exact absurd hx (List.not_mem_nil x)

/-- C10 witness: under an environment where no host accepts, the first
call returns the first candidate with port 54321, a 60-character host. -/
theorem get_unreachable_address_witness :
    (constantRandHost, 54321).2 = 54321 ∧
      constantRandEnv.connects (constantRandHost, 54321).1 = false ∧
      (constantRandHost, 54321).1.length = 60 :=
  have h := get_unreachable_address_spec constantRandEnv 1 0
    (constantRandHost, 54321) [] rfl
  ⟨h.1, h.2.1, h.2.2.1⟩

end Hip

